import Mathlib

/-!
Verification development for the bevyray raytracing core.

The definitions below are a shallow embedding of the repository code:

* `Extract` embeds `src/raytracing/extract.rs` (the snapshot extraction,
  material records, the BVH node layout, and the `prepare_buffers` system).
* `Pipeline` embeds `src/raytracing/pipeline.rs` (the compositing pass
  node `RayTracingNode::run` and its buffer state).

Scalar fields that are `f32` in the source are embedded as `Int`: the
code only copies them around or adds and subtracts a radius, so exact
integers are a faithful carrier for every property stated here.  Machine
integer casts that can wrap (`usize as u32`) are embedded with an
explicit `% 4294967296`.  External library calls (the `obvhs` BVH
builder, `std::sync::Mutex` lock acquisition, the bevy `StorageBuffer`)
are embedded as explicit parameters or small state machines mirroring
the behavior the code relies on.
-/

/-- Three component vector, standing for `bevy::math::Vec3`.  Components
are exact integers, see the header comment. -/
structure Vec3 where
  x : Int
  y : Int
  z : Int
deriving DecidableEq, Repr

/-- Componentwise subtraction of a scalar from every component,
standing for `v - Vec3A::splat(r)`. -/
def Vec3.subSplat (v : Vec3) (r : Int) : Vec3 :=
  { x := v.x - r, y := v.y - r, z := v.z - r }

/-- Componentwise addition of a scalar to every component, standing for
`v + Vec3A::splat(r)`. -/
def Vec3.addSplat (v : Vec3) (r : Int) : Vec3 :=
  { x := v.x + r, y := v.y + r, z := v.z + r }

/-- Componentwise order on vectors. -/
def Vec3.le (a b : Vec3) : Prop :=
  a.x ≤ b.x ∧ a.y ≤ b.y ∧ a.z ≤ b.z

instance (a b : Vec3) : Decidable (Vec3.le a b) := by
  unfold Vec3.le; infer_instance

/-- Axis aligned bounding box, standing for `obvhs::aabb::Aabb`. -/
structure Aabb where
  min : Vec3
  max : Vec3
deriving DecidableEq, Repr

/-- Outcome of a Rust panic (`expect` on a missing value, or an out of
bounds `Vec::swap`). -/
inductive Panic where
  | panic
deriving DecidableEq, Repr

namespace Extract

/-- Embeds `RaytracedSphereExtract` from extract.rs: world position and
radius of one raytraced sphere, re-extracted every frame. -/
structure RaytracedSphereExtract where
  position : Vec3
  radius : Int
deriving DecidableEq, Repr

/-- Embeds `RaytraceMaterial` from extract.rs: the GPU layout record a
`StandardMaterial` is resolved to. -/
structure RaytraceMaterial where
  base_color : Vec3
  metallic : Int
  roughness : Int
  reflectance : Int
  ior : Int
  specular_transmission : Int
deriving DecidableEq, Repr

/-- Embeds `Model` from extract.rs: one sphere as stored in the model
buffer, carrying the index of its material record. -/
structure Model where
  position : Vec3
  radius : Int
  material_id : Nat
deriving DecidableEq, Repr

/-- Embeds the `Boundable` impl for `Model`: the bounding box of a
sphere is its center plus and minus the radius on every axis. -/
def Model.aabb (m : Model) : Aabb :=
  { min := m.position.subSplat m.radius, max := m.position.addSplat m.radius }

/-- Embeds `BVHNode` from extract.rs: GPU layout of one BVH node.
`index` is the first model index when the node is a leaf
(`model_count > 0`), otherwise the first child index. -/
structure BVHNode where
  bounds_min : Vec3
  bounds_max : Vec3
  index : Nat
  model_count : Nat
deriving DecidableEq, Repr

/-- One node of the tree returned by the external `obvhs` builder
(`obvhs::bvh2::Bvh2Node`): its box, first index and primitive count. -/
structure Bvh2Node where
  aabb : Aabb
  first_index : Nat
  prim_count : Nat
deriving DecidableEq, Repr

/-- The tree returned by the external `obvhs` builder
(`obvhs::bvh2::Bvh2`): a flat node array plus the reordering
permutation `primitive_indices` (position `i` of the sorted layout
holds the primitive originally at index `primitive_indices[i]`). -/
structure Bvh2 where
  nodes : List Bvh2Node
  primitive_indices : List Nat
deriving DecidableEq, Repr

/-- Contents of the three storage buffer resources `ModelBuffer`,
`MaterialBuffer` and `BVHBuffer` of extract.rs. -/
structure Buffers where
  model_buffer : List Model
  material_buffer : List RaytraceMaterial
  bvh_buffer : List BVHNode
deriving DecidableEq, Repr

/-- Embeds the enumeration loop of `prepare_buffers`
(extract.rs lines 297 to 309): for every extracted sphere it looks its
material handle up in the render asset cache (`materials.get(..)
.expect("This should exist")`, a panic when absent), pushes the
material record, and pushes a `Model` whose `material_id` is the
enumeration index cast to `u32`. -/
def collectModels (materials : Nat → Option RaytraceMaterial) :
    Nat → List (RaytracedSphereExtract × Nat) →
    Except Panic (List Model × List RaytraceMaterial)
  | _, [] => Except.ok ([], [])
  | index, (sphere, material_handle) :: rest =>
    match materials material_handle with
    | none => Except.error Panic.panic
    | some material =>
      match collectModels materials (index + 1) rest with
      | Except.error e => Except.error e
      | Except.ok (spheres, mats) =>
        Except.ok
          ({ position := sphere.position, radius := sphere.radius,
             material_id := index % 4294967296 } :: spheres,
           material :: mats)

/-- Embeds `Vec::swap(i, j)`: exchanges the elements at `i` and `j`,
and is `none` (a Rust panic) when either index is out of bounds. -/
def listSwap (l : List α) (i j : Nat) : Option (List α) :=
  match l.get? i, l.get? j with
  | some a, some b => some ((l.set i b).set j a)
  | _, _ => none

/-- Embeds the reorder loop of `prepare_buffers`
(extract.rs lines 315 to 318):
`for (original_index, new_index) in bvh.primitive_indices.iter()
.enumerate() { all_spheres.swap(original_index, *new_index as usize) }`.
`start` is the running `original_index`, `0` at the initial call. -/
def swapLoop (l : List α) : List Nat → Nat → Option (List α)
  | [], _ => some l
  | new_index :: rest, start =>
    match listSwap l start new_index with
    | none => none
    | some l2 => swapLoop l2 rest (start + 1)

/-- Embeds the node conversion of `prepare_buffers`
(extract.rs lines 320 to 329), field for field: the source assigns
`bounds_max: node.aabb.min` and `bounds_min: node.aabb.max`. -/
def toBVHNode (node : Bvh2Node) : BVHNode :=
  { bounds_max := node.aabb.min
    bounds_min := node.aabb.max
    index := node.first_index
    model_count := node.prim_count }

/-- Embeds `prepare_buffers` from extract.rs.  `build` stands for the
external `obvhs::bvh2::builder::build_bvh2` with
`BvhBuildParams::fast_build` (a pure function of the primitive list).
The three booleans are the results of locking `ModelBuffer`,
`MaterialBuffer` and `BVHBuffer` in source order: `false` means the
lock was poisoned (`let Ok(..) = ..lock() else return`), making the
system return with the previous buffer contents `prev` untouched.
`materials` is the render asset cache, keyed by the opaque material
handle id. -/
def prepare_buffers (build : List Model → Bvh2)
    (model_lock material_lock bvh_lock : Bool)
    (materials : Nat → Option RaytraceMaterial)
    (data : List (RaytracedSphereExtract × Nat))
    (prev : Buffers) : Except Panic Buffers :=
  if model_lock = false then Except.ok prev
  else if material_lock = false then Except.ok prev
  else if bvh_lock = false then Except.ok prev
  else
    match collectModels materials 0 data with
    | Except.error e => Except.error e
    | Except.ok (all_spheres, all_materials) =>
      let bvh := build all_spheres
      match swapLoop all_spheres bvh.primitive_indices 0 with
      | none => Except.error Panic.panic
      | some reordered =>
        let bvh_nodes := bvh.nodes.map toBVHNode
        Except.ok
          { model_buffer := reordered
            material_buffer := all_materials
            bvh_buffer := bvh_nodes }

/-- Modelled from the spec: the physical reordering the spec demands
after the build, so that final position `i` holds the primitive
originally at index `primitive_indices[i]` and leaf ranges index
directly into the final layout.  Stated for comparison with the
reorder loop the source actually runs. -/
def specReorder (l : List α) (perm : List Nat) : List α :=
  perm.filterMap fun i => l.get? i

end Extract

namespace Extract

/-- Embeds the render level enum (`Skip`, `FallbackRaster`,
`FallbackRaytraced`, `Pure`), a `repr(u32)` enum on the main world
camera. -/
inductive Raytracing where
  | Skip
  | FallbackRaster
  | FallbackRaytraced
  | Pure
deriving DecidableEq, Repr

/-- Embeds the `as u32` cast of the `repr(u32)` level enum. -/
def Raytracing.toU32 : Raytracing → Nat
  | .Skip => 0
  | .FallbackRaster => 1
  | .FallbackRaytraced => 2
  | .Pure => 3

/-- Modelled from the spec: the main world `RaytracedCamera` component
(declared outside the files under src) carrying the per camera
raytracing configuration read by extraction in extract.rs: render
level, stochastic sample count, and maximum bounce count. -/
structure RaytracedCamera where
  level : Raytracing
  sample_count : Nat
  bounces : Nat
deriving DecidableEq, Repr

/-- Embeds `PerspectiveProjection`: the perspective parameters matched
out of the projection in extract.rs. -/
structure PerspectiveProjection where
  fov : Int
  aspect_ratio : Int
  near : Int
  far : Int
deriving DecidableEq, Repr

/-- Embeds the bevy `Projection` enum: a camera projection is either
perspective or orthographic. -/
inductive Projection where
  | perspective (p : PerspectiveProjection)
  | orthographic
deriving DecidableEq, Repr

/-- Embeds the parts of `GlobalTransform` the extraction reads:
translation, forward and up vectors. -/
structure GlobalTransformData where
  translation : Vec3
  forward : Vec3
  up : Vec3
deriving DecidableEq, Repr

/-- Embeds `RaytraceLevelExtract` from extract.rs: the render level as
a shader visible integer. -/
structure RaytraceLevelExtract where
  level : Nat
deriving DecidableEq, Repr

/-- Embeds `CameraExtract` from extract.rs: the shader visible camera
record. -/
structure CameraExtract where
  sample_count : Nat
  bounce_count : Nat
  projection : Nat
  near : Int
  far : Int
  fov : Int
  aspect : Int
  position : Vec3
  direction : Vec3
  up : Vec3
deriving DecidableEq, Repr

/-- Embeds `CameraExtract::extract_component` from extract.rs
(lines 117 to 155): a perspective camera yields its level uniform and
camera record with `projection := 0`; an orthographic camera returns
`None` (`// Currently unsupported`). -/
def extract_component
    (item : RaytracedCamera × GlobalTransformData × Projection) :
    Option (RaytraceLevelExtract × CameraExtract) :=
  let camera := item.1
  match item.2.2 with
  | Projection.perspective p =>
    let transform := item.2.1
    let camera_extract : CameraExtract :=
      { sample_count := camera.sample_count
        bounce_count := camera.bounces
        projection := 0
        near := p.near
        far := p.far
        aspect := p.aspect_ratio
        fov := p.fov
        position := transform.translation
        direction := transform.forward
        up := transform.up }
    some ({ level := camera.level.toU32 }, camera_extract)
  | Projection.orthographic => none

/-- Embeds the per entity extraction the `ExtractComponentPlugin` runs:
every camera entity is visited independently and the ones whose
`extract_component` is `None` simply contribute nothing to the render
world. -/
def extract_cameras
    (items : List (RaytracedCamera × GlobalTransformData × Projection)) :
    List (RaytraceLevelExtract × CameraExtract) :=
  items.filterMap extract_component

end Extract

namespace Pipeline

/-- Embeds `RayTraceSphere` from pipeline.rs: the geometry buffer
element. -/
structure RayTraceSphere where
  position : Vec3
  radius : Int
  material_id : Nat
deriving DecidableEq, Repr

/-- Embeds `RaytraceMaterial` from pipeline.rs (the variant local to
that module, carrying only the linear base color). -/
structure RaytraceMaterial where
  base_color : Vec3
deriving DecidableEq, Repr

/-- State of one bevy `StorageBuffer`: the CPU side value last `set`,
and the GPU side allocation backing `binding()`.  `write_buffer` on a
nonempty value creates or refreshes the allocation; on an empty value
no allocation is ever created, so `binding()` stays `none` until the
buffer is first populated. -/
structure StorageBufferState (α : Type) where
  data : List α
  gpu : Option (List α)
deriving DecidableEq, Repr

/-- Embeds `StorageBuffer::write_buffer` (external bevy code the node
calls): uploads the current value when it is nonempty, otherwise
leaves the GPU side untouched. -/
def writeBuffer (s : StorageBufferState α) : StorageBufferState α :=
  if s.data.isEmpty then s else { s with gpu := some s.data }

/-- Embeds `StorageBuffer::binding`: available once a GPU allocation
exists. -/
def binding (s : StorageBufferState α) : Option (List α) :=
  s.gpu

/-- Inputs of one `RayTracingNode::run` invocation: resource lookups
and lock outcomes in the order the source queries them.  The boolean
fields are `true` when the corresponding `let Some(..)` or
`let Ok(..)` succeeds; the two lock fields are `true` when the mutex
is not poisoned (`lock().expect(..)` panics otherwise). -/
structure RunState where
  pipeline_ready : Bool
  settings_binding : Bool
  camera_binding : Bool
  depth_view : Bool
  geometry_lock_ok : Bool
  material_lock_ok : Bool
  geometry : StorageBufferState RayTraceSphere
  material : StorageBufferState RaytraceMaterial
deriving DecidableEq, Repr

/-- Observable effects of one `RayTracingNode::run` invocation:
whether `post_process_write` flipped the ping pong target, whether the
bind groups were created, whether the render pass was recorded (the
only way anything is written to the destination target), what buffer
contents the pass bound, and the buffer states afterwards. -/
structure RunEffects where
  flipped : Bool
  bind_group_created : Bool
  pass_recorded : Bool
  bound_geometry : Option (List RayTraceSphere)
  bound_material : Option (List RaytraceMaterial)
  geometry_after : StorageBufferState RayTraceSphere
  material_after : StorageBufferState RaytraceMaterial
deriving DecidableEq, Repr

/-- Embeds `RayTracingNode::run` from pipeline.rs (lines 219 to 355),
mirroring its control flow step by step: missing pipeline, settings
binding or camera binding return `Ok` before anything happens; then
`post_process_write` flips the view target; a missing depth prepass
view returns `Ok`; the geometry and material mutexes are locked with
`expect`, a panic when poisoned; `write_buffer` runs on both buffers;
a missing buffer binding returns `Ok`; otherwise the bind groups are
created and the fullscreen pass is recorded to the destination. -/
def run (s : RunState) : Except Panic RunEffects :=
  if s.pipeline_ready = false then
    Except.ok { flipped := false, bind_group_created := false,
                pass_recorded := false, bound_geometry := none,
                bound_material := none, geometry_after := s.geometry,
                material_after := s.material }
  else if s.settings_binding = false then
    Except.ok { flipped := false, bind_group_created := false,
                pass_recorded := false, bound_geometry := none,
                bound_material := none, geometry_after := s.geometry,
                material_after := s.material }
  else if s.camera_binding = false then
    Except.ok { flipped := false, bind_group_created := false,
                pass_recorded := false, bound_geometry := none,
                bound_material := none, geometry_after := s.geometry,
                material_after := s.material }
  else
    -- post_process_write happens here: the target roles are flipped
    -- before the depth prepass check.
    if s.depth_view = false then
      Except.ok { flipped := true, bind_group_created := false,
                  pass_recorded := false, bound_geometry := none,
                  bound_material := none, geometry_after := s.geometry,
                  material_after := s.material }
    else if s.geometry_lock_ok = false then
      Except.error Panic.panic
    else if s.material_lock_ok = false then
      Except.error Panic.panic
    else
      let geometry_buffer := writeBuffer s.geometry
      let material_buffer := writeBuffer s.material
      match binding geometry_buffer, binding material_buffer with
      | none, _ =>
        Except.ok { flipped := true, bind_group_created := false,
                    pass_recorded := false, bound_geometry := none,
                    bound_material := none,
                    geometry_after := geometry_buffer,
                    material_after := material_buffer }
      | some _, none =>
        Except.ok { flipped := true, bind_group_created := false,
                    pass_recorded := false, bound_geometry := none,
                    bound_material := none,
                    geometry_after := geometry_buffer,
                    material_after := material_buffer }
      | some g, some m =>
        Except.ok { flipped := true, bind_group_created := true,
                    pass_recorded := true, bound_geometry := some g,
                    bound_material := some m,
                    geometry_after := geometry_buffer,
                    material_after := material_buffer }

end Pipeline

/-! Concrete scene fragments used to evaluate the embedded code. -/

/-- A unit sphere at the origin. -/
def sphereA : Extract.RaytracedSphereExtract :=
  { position := { x := 0, y := 0, z := 0 }, radius := 1 }

/-- A unit sphere at x = 4. -/
def sphereB : Extract.RaytracedSphereExtract :=
  { position := { x := 4, y := 0, z := 0 }, radius := 1 }

/-- A concrete resolved material record. -/
def matRecord : Extract.RaytraceMaterial :=
  { base_color := { x := 1, y := 1, z := 1 }, metallic := 0, roughness := 0,
    reflectance := 0, ior := 1, specular_transmission := 0 }

/-- A render asset cache resolving every handle. -/
def cacheAll : Nat → Option Extract.RaytraceMaterial := fun _ => some matRecord

/-- A render asset cache with no record prepared yet. -/
def cacheNone : Nat → Option Extract.RaytraceMaterial := fun _ => none

/-- The two sphere frame, handles 0 and 1. -/
def dataAB : List (Extract.RaytracedSphereExtract × Nat) := [(sphereA, 0), (sphereB, 1)]

/-- The one sphere frame. -/
def dataA : List (Extract.RaytracedSphereExtract × Nat) := [(sphereA, 0)]

/-- Buffers before the first successful preparation. -/
def emptyBuffers : Extract.Buffers :=
  { model_buffer := [], material_buffer := [], bvh_buffer := [] }

/-- The model the loop builds for `sphereA` at enumeration index 0. -/
def modelA : Extract.Model :=
  { position := { x := 0, y := 0, z := 0 }, radius := 1, material_id := 0 }

/-- The model the loop builds for `sphereB` at enumeration index 1. -/
def modelB : Extract.Model :=
  { position := { x := 4, y := 0, z := 0 }, radius := 1, material_id := 1 }

/-- A root leaf covering both spheres of `dataAB`. -/
def rootAB : Extract.Bvh2Node :=
  { aabb := { min := { x := -1, y := -1, z := -1 }, max := { x := 5, y := 1, z := 1 } },
    first_index := 0, prim_count := 2 }

/-- A builder outcome for the two sphere frame whose reordering
permutation is the transposition `[1, 0]`, a bijection on `0..2`. -/
def buildSwapAB : List Extract.Model → Extract.Bvh2 :=
  fun _ => { nodes := [rootAB], primitive_indices := [1, 0] }

/-- The buffers `prepare_buffers` actually produces on `dataAB` with
`buildSwapAB`: the model order is unchanged because the two swaps
cancel each other. -/
def bufAB : Extract.Buffers :=
  { model_buffer := [modelA, modelB], material_buffer := [matRecord, matRecord],
    bvh_buffer := [Extract.toBVHNode rootAB] }

/-- A root leaf for the single sphere frame, with the box the builder
contract mandates for a unit sphere at the origin. -/
def rootA : Extract.Bvh2Node :=
  { aabb := { min := { x := -1, y := -1, z := -1 }, max := { x := 1, y := 1, z := 1 } },
    first_index := 0, prim_count := 1 }

/-- A builder outcome for the single sphere frame with the identity
permutation. -/
def buildSingleA : List Extract.Model → Extract.Bvh2 :=
  fun _ => { nodes := [rootA], primitive_indices := [0] }

/-- A concrete camera configuration. -/
def camPure : Extract.RaytracedCamera :=
  { level := Extract.Raytracing.Pure, sample_count := 4, bounces := 4 }

/-- A concrete camera transform. -/
def trOrigin : Extract.GlobalTransformData :=
  { translation := { x := 0, y := 0, z := 5 }, forward := { x := 0, y := 0, z := -1 },
    up := { x := 0, y := 1, z := 0 } }

/-- A concrete perspective projection. -/
def perspDefault : Extract.PerspectiveProjection :=
  { fov := 1, aspect_ratio := 2, near := 1, far := 1000 }

/-- Helper shared by several results: any poisoned lock makes
`prepare_buffers` return with the previous buffers untouched. -/
theorem prepare_buffers_lock_skip_aux (build : List Extract.Model → Extract.Bvh2)
    (ml mtl bl : Bool) (materials : Nat → Option Extract.RaytraceMaterial)
    (data : List (Extract.RaytracedSphereExtract × Nat)) (prev : Extract.Buffers)
    (h : ml = false ∨ mtl = false ∨ bl = false) :
    Extract.prepare_buffers build ml mtl bl materials data prev = Except.ok prev := by
  rcases h with h | h | h
  · subst h; simp [Extract.prepare_buffers]
  · subst h; cases ml <;> simp [Extract.prepare_buffers]
  · subst h; cases ml <;> cases mtl <;> simp [Extract.prepare_buffers]

/-- C1: the claim states that after `build_bvh2` returns a bijective
permutation, the model buffer holds the input array physically
reordered by it, final position i holding the model originally at
`primitive_indices[i]`.  The code refutes this: the loop
`all_spheres.swap(original_index, new_index)` does not apply the
permutation.  With the bijection `[1, 0]` the two swaps cancel and the
buffer keeps the original order `[modelA, modelB]`, while the required
reorder is `[modelB, modelA]`. -/
theorem prepare_buffers_reorder_is_not_the_permutation :
    Extract.prepare_buffers buildSwapAB true true true cacheAll dataAB emptyBuffers =
      Except.ok bufAB ∧
    Extract.specReorder [modelA, modelB] [1, 0] = [modelB, modelA] ∧
    bufAB.model_buffer ≠ [modelB, modelA] :=
  ⟨rfl, rfl, by decide⟩

/-- C2: the claim states that every node written to the BVH buffer has
`bounds_min` the minimum corner and `bounds_max` the maximum corner of
its box.  The code refutes this: the conversion assigns
`bounds_max := node.aabb.min` and `bounds_min := node.aabb.max`, so a
single unit sphere at the origin yields a written root node with
`bounds_min = (1,1,1)` and `bounds_max = (-1,-1,-1)`, and
`bounds_min ≤ bounds_max` fails although the source box is ordered. -/
theorem prepare_buffers_writes_swapped_bounds :
    (Extract.prepare_buffers buildSingleA true true true cacheAll dataA emptyBuffers).map
        Extract.Buffers.bvh_buffer = Except.ok [Extract.toBVHNode rootA] ∧
    (Extract.toBVHNode rootA).bounds_min = { x := 1, y := 1, z := 1 } ∧
    (Extract.toBVHNode rootA).bounds_max = { x := -1, y := -1, z := -1 } ∧
    ¬ Vec3.le (Extract.toBVHNode rootA).bounds_min (Extract.toBVHNode rootA).bounds_max ∧
    Vec3.le rootA.aabb.min rootA.aabb.max :=
  ⟨rfl, rfl, rfl, by decide, by decide⟩

/-- C5: whenever a buffer lock cannot be acquired, `prepare_buffers`
returns without writing, leaving the previous buffer contents
intact. -/
theorem prepare_buffers_skips_frame_on_lock_failure
    (build : List Extract.Model → Extract.Bvh2) (ml mtl bl : Bool)
    (materials : Nat → Option Extract.RaytraceMaterial)
    (data : List (Extract.RaytracedSphereExtract × Nat)) (prev : Extract.Buffers)
    (h : ml = false ∨ mtl = false ∨ bl = false) :
    Extract.prepare_buffers build ml mtl bl materials data prev = Except.ok prev :=
  prepare_buffers_lock_skip_aux build ml mtl bl materials data prev h

/-- Witness for C5 at a concrete frame with a poisoned model lock. -/
theorem prepare_buffers_skips_frame_on_lock_failure_witness :
    Extract.prepare_buffers buildSingleA false true true cacheAll dataA emptyBuffers =
      Except.ok emptyBuffers :=
  prepare_buffers_skips_frame_on_lock_failure buildSingleA false true true cacheAll dataA
    emptyBuffers (Or.inl rfl)

/-- C8: the buffer preparation is deterministic: two runs on the same
extracted data, materials, builder and lock outcomes produce the same
buffers (the embedded system is a pure function of these inputs; the
only frame varying entropy in the module, the window random seed, is
not read here). -/
theorem prepare_buffers_deterministic
    (build : List Extract.Model → Extract.Bvh2) (ml mtl bl : Bool)
    (materials : Nat → Option Extract.RaytraceMaterial)
    (data : List (Extract.RaytracedSphereExtract × Nat)) (prev : Extract.Buffers)
    (out1 out2 : Except Panic Extract.Buffers)
    (h1 : Extract.prepare_buffers build ml mtl bl materials data prev = out1)
    (h2 : Extract.prepare_buffers build ml mtl bl materials data prev = out2) :
    out1 = out2 :=
  h1.symm.trans h2

/-- Witness for C8: the two sphere frame evaluated twice. -/
theorem prepare_buffers_deterministic_witness :
    Extract.prepare_buffers buildSwapAB true true true cacheAll dataAB emptyBuffers =
      Extract.prepare_buffers buildSwapAB true true true cacheAll dataAB emptyBuffers :=
  prepare_buffers_deterministic buildSwapAB true true true cacheAll dataAB emptyBuffers
    _ _ rfl rfl

/-- C4: a camera whose projection is not perspective is silently
excluded: its extraction returns `none` (no snapshot, no error, no
panic), and the extraction of all other cameras of the frame is
unchanged by its presence. -/
theorem extraction_excludes_non_perspective_camera
    (cam : Extract.RaytracedCamera) (tr : Extract.GlobalTransformData)
    (proj : Extract.Projection)
    (h : ∀ p, proj ≠ Extract.Projection.perspective p)
    (xs ys : List (Extract.RaytracedCamera × Extract.GlobalTransformData × Extract.Projection)) :
    Extract.extract_component (cam, tr, proj) = none ∧
    Extract.extract_cameras (xs ++ (cam, tr, proj) :: ys) =
      Extract.extract_cameras (xs ++ ys) := by
  have hnone : Extract.extract_component (cam, tr, proj) = none := by
    cases proj with
    | perspective p => exact absurd rfl (h p)
    | orthographic => rfl
  refine ⟨hnone, ?_⟩
  simp [Extract.extract_cameras, List.filterMap_append, List.filterMap_cons, hnone]

/-- Witness for C4: one perspective camera next to one orthographic
camera. -/
theorem extraction_excludes_non_perspective_camera_witness :
    Extract.extract_component (camPure, trOrigin, Extract.Projection.orthographic) = none ∧
    Extract.extract_cameras
        ([(camPure, trOrigin, Extract.Projection.perspective perspDefault)] ++
          (camPure, trOrigin, Extract.Projection.orthographic) :: []) =
      Extract.extract_cameras
        ([(camPure, trOrigin, Extract.Projection.perspective perspDefault)] ++ []) :=
  extraction_excludes_non_perspective_camera camPure trOrigin Extract.Projection.orthographic
    (fun _p hp => Extract.Projection.noConfusion hp) _ _

/-- A draw invocation whose view misses the depth prepass texture. -/
def nodeStateNoDepth : Pipeline.RunState :=
  { pipeline_ready := true, settings_binding := true, camera_binding := true,
    depth_view := false, geometry_lock_ok := true, material_lock_ok := true,
    geometry := { data := [], gpu := none }, material := { data := [], gpu := none } }

/-- C10: `post_process_write` runs before the depth prepass check, so a
view with a missing depth texture returns having already flipped the
target roles, with no bind group created and nothing drawn to the new
destination. -/
theorem run_flips_target_before_depth_check (s : Pipeline.RunState)
    (hp : s.pipeline_ready = true) (hs : s.settings_binding = true)
    (hc : s.camera_binding = true) (hd : s.depth_view = false) :
    Pipeline.run s = Except.ok
      { flipped := true, bind_group_created := false, pass_recorded := false,
        bound_geometry := none, bound_material := none,
        geometry_after := s.geometry, material_after := s.material } := by
  simp [Pipeline.run, hp, hs, hc, hd]

/-- Witness for C10 at a concrete draw invocation. -/
theorem run_flips_target_before_depth_check_witness :
    Pipeline.run nodeStateNoDepth = Except.ok
      { flipped := true, bind_group_created := false, pass_recorded := false,
        bound_geometry := none, bound_material := none,
        geometry_after := nodeStateNoDepth.geometry,
        material_after := nodeStateNoDepth.material } :=
  run_flips_target_before_depth_check nodeStateNoDepth rfl rfl rfl rfl

/-- A draw invocation reaching the buffer locks with the geometry
mutex poisoned. -/
def poisonedDrawState : Pipeline.RunState :=
  { pipeline_ready := true, settings_binding := true, camera_binding := true,
    depth_view := true, geometry_lock_ok := false, material_lock_ok := true,
    geometry := { data := [], gpu := none }, material := { data := [], gpu := none } }

/-- C6 counterexample: the claim states that a poisoned buffer mutex in
the draw step makes the step return for the frame instead of crashing.
The code locks with `expect`, so a poisoned geometry mutex panics. -/
theorem run_panics_on_poisoned_buffer_mutex :
    Pipeline.run poisonedDrawState = Except.error Panic.panic := rfl

/-- Specification of a successful enumeration loop: both output lists
are as long as the input, position `i` holds the model built from the
sphere at position `i` with `material_id` the wrapped enumeration
index, and position `i` of the material list is the cache lookup for
that sphere. -/
theorem collectModels_ok_spec (materials : Nat → Option Extract.RaytraceMaterial)
    (data : List (Extract.RaytracedSphereExtract × Nat)) :
    ∀ (k : Nat) (ms : List Extract.Model) (mts : List Extract.RaytraceMaterial),
      Extract.collectModels materials k data = Except.ok (ms, mts) →
      ms.length = data.length ∧ mts.length = data.length ∧
      ∀ i d, data.get? i = some d →
        ms.get? i = some { position := d.1.position, radius := d.1.radius,
                           material_id := (k + i) % 4294967296 } ∧
        mts.get? i = materials d.2 := by
  induction data with
  | nil =>
    intro k ms mts h
    simp [Extract.collectModels] at h
    obtain ⟨h1, h2⟩ := h
    subst h1; subst h2
    exact ⟨rfl, rfl, fun i d hd => by simp at hd⟩
  | cons pair rest ih =>
    obtain ⟨s0, mh0⟩ := pair
    intro k ms mts h
    cases hm : materials mh0 with
    | none => simp [Extract.collectModels, hm] at h
    | some m0 =>
      cases hrec : Extract.collectModels materials (k + 1) rest with
      | error e => simp [Extract.collectModels, hm, hrec] at h
      | ok pr =>
        obtain ⟨spheres, mats⟩ := pr
        simp [Extract.collectModels, hm, hrec] at h
        obtain ⟨hms, hmts⟩ := h
        subst hms; subst hmts
        obtain ⟨ihl1, ihl2, ihspec⟩ := ih (k + 1) spheres mats hrec
        refine ⟨by simp [ihl1], by simp [ihl2], ?_⟩
        intro i d hd
        cases i with
        | zero =>
          simp at hd
          subst hd
          exact ⟨by simp, by simp [hm]⟩
        | succ j =>
          simp only [List.get?_cons_succ] at hd ⊢
          have hspec := ihspec j d hd
          have harith : k + 1 + j = k + (j + 1) := by omega
          rw [harith] at hspec
          exact hspec

/-- A successful `Vec::swap` keeps the list length. -/
theorem listSwap_length {α : Type} (l l2 : List α) (i j : Nat)
    (h : Extract.listSwap l i j = some l2) : l2.length = l.length := by
  unfold Extract.listSwap at h
  cases hi : l.get? i <;> cases hj : l.get? j <;> rw [hi, hj] at h <;> simp at h
  subst h
  simp

/-- Every element of a successful `Vec::swap` result was in the
input. -/
theorem listSwap_subset {α : Type} (l l2 : List α) (i j : Nat)
    (h : Extract.listSwap l i j = some l2) : ∀ a ∈ l2, a ∈ l := by
  unfold Extract.listSwap at h
  cases hi : l.get? i <;> cases hj : l.get? j <;> rw [hi, hj] at h <;> simp at h
  intro a ha
  subst h
  rcases List.mem_or_eq_of_mem_set ha with ha2 | rfl
  · rcases List.mem_or_eq_of_mem_set ha2 with ha3 | rfl
    · exact ha3
    · exact List.get?_mem hj
  · exact List.get?_mem hi

/-- A successful run of the reorder loop keeps the list length. -/
theorem swapLoop_length {α : Type} (perm : List Nat) :
    ∀ (l l2 : List α) (start : Nat),
      Extract.swapLoop l perm start = some l2 → l2.length = l.length := by
  induction perm with
  | nil =>
    intro l l2 start h
    simp [Extract.swapLoop] at h
    subst h; rfl
  | cons p rest ih =>
    intro l l2 start h
    cases hs : Extract.listSwap l start p with
    | none => simp [Extract.swapLoop, hs] at h
    | some lmid =>
      simp [Extract.swapLoop, hs] at h
      exact (ih lmid l2 (start + 1) h).trans (listSwap_length l lmid start p hs)

/-- Every element of a successful reorder loop result was in the
input list. -/
theorem swapLoop_subset {α : Type} (perm : List Nat) :
    ∀ (l l2 : List α) (start : Nat),
      Extract.swapLoop l perm start = some l2 → ∀ a ∈ l2, a ∈ l := by
  induction perm with
  | nil =>
    intro l l2 start h a ha
    simp [Extract.swapLoop] at h
    subst h; exact ha
  | cons p rest ih =>
    intro l l2 start h a ha
    cases hs : Extract.listSwap l start p with
    | none => simp [Extract.swapLoop, hs] at h
    | some lmid =>
      simp [Extract.swapLoop, hs] at h
      exact listSwap_subset l lmid start p hs a (ih lmid l2 (start + 1) h a ha)

/-- Elimination of a successful `prepare_buffers` run: it decomposes
into a successful enumeration loop, a successful reorder loop on the
builder permutation, and the node conversion. -/
theorem prepare_buffers_ok_elim (build : List Extract.Model → Extract.Bvh2)
    (materials : Nat → Option Extract.RaytraceMaterial)
    (data : List (Extract.RaytracedSphereExtract × Nat))
    (prev out : Extract.Buffers)
    (h : Extract.prepare_buffers build true true true materials data prev = Except.ok out) :
    ∃ ms mts reordered,
      Extract.collectModels materials 0 data = Except.ok (ms, mts) ∧
      Extract.swapLoop ms (build ms).primitive_indices 0 = some reordered ∧
      out = { model_buffer := reordered, material_buffer := mts,
              bvh_buffer := (build ms).nodes.map Extract.toBVHNode } := by
  cases hc : Extract.collectModels materials 0 data with
  | error e => simp [Extract.prepare_buffers, hc] at h
  | ok pr =>
    obtain ⟨ms, mts⟩ := pr
    cases hs : Extract.swapLoop ms (build ms).primitive_indices 0 with
    | none => simp [Extract.prepare_buffers, hc, hs] at h
    | some reordered =>
      simp [Extract.prepare_buffers, hc, hs] at h
      exact ⟨ms, mts, reordered, rfl, hs, h.symm⟩

/-- C9: a successful buffer preparation writes as many material records
as models (one per extracted sphere, in enumeration order), and before
the reorder pass the model at position `i` carries `material_id = i`. -/
theorem prepare_buffers_parallel_buffers
    (build : List Extract.Model → Extract.Bvh2)
    (materials : Nat → Option Extract.RaytraceMaterial)
    (data : List (Extract.RaytracedSphereExtract × Nat))
    (prev out : Extract.Buffers)
    (ms : List Extract.Model) (mts : List Extract.RaytraceMaterial)
    (i : Nat) (m : Extract.Model)
    (hlen : data.length ≤ 4294967296)
    (hout : Extract.prepare_buffers build true true true materials data prev = Except.ok out)
    (hcollect : Extract.collectModels materials 0 data = Except.ok (ms, mts))
    (hm : ms.get? i = some m) :
    out.model_buffer.length = out.material_buffer.length ∧
    out.material_buffer.length = data.length ∧
    m.material_id = i := by
  obtain ⟨ms2, mts2, reordered, hc2, hs2, hout2⟩ :=
    prepare_buffers_ok_elim build materials data prev out hout
  rw [hcollect] at hc2
  injection hc2 with hpair
  injection hpair with hms hmts
  subst hms; subst hmts
  subst hout2
  obtain ⟨spec1, spec2, spec3⟩ := collectModels_ok_spec materials data 0 ms mts hcollect
  have hilt : i < ms.length := by
    by_contra hge
    rw [List.get?_eq_none.mpr (Nat.le_of_not_lt hge)] at hm
    exact Option.noConfusion hm
  have hidata : i < data.length := spec1 ▸ hilt
  have hlen2 := swapLoop_length (build ms).primitive_indices ms reordered 0 hs2
  refine ⟨?_, ?_, ?_⟩
  · simp only []
    omega
  · simpa using spec2
  · have hd : data.get? i = some (data.get ⟨i, hidata⟩) := List.get?_eq_get hidata
    obtain ⟨hmsi, _⟩ := spec3 i _ hd
    rw [hm] at hmsi
    injection hmsi with hmeq
    rw [hmeq]
    simp [Nat.mod_eq_of_lt (lt_of_lt_of_le hidata hlen)]

/-- Witness for C9 on the two sphere frame. -/
theorem prepare_buffers_parallel_buffers_witness :
    bufAB.model_buffer.length = bufAB.material_buffer.length ∧
    bufAB.material_buffer.length = dataAB.length ∧
    modelB.material_id = 1 :=
  prepare_buffers_parallel_buffers buildSwapAB cacheAll dataAB emptyBuffers bufAB
    [modelA, modelB] [matRecord, matRecord] 1 modelB (by decide) rfl rfl rfl

/-- C3: after a successful preparation, every model in the final
(reordered) model buffer still references the material resolved for
its source sphere: position `material_id` of the material buffer is
the cache lookup for the sphere that model was built from, whose
position and radius the model carries. -/
theorem prepare_buffers_materials_follow_models
    (build : List Extract.Model → Extract.Bvh2)
    (materials : Nat → Option Extract.RaytraceMaterial)
    (data : List (Extract.RaytracedSphereExtract × Nat))
    (prev out : Extract.Buffers) (m : Extract.Model)
    (hlen : data.length ≤ 4294967296)
    (hout : Extract.prepare_buffers build true true true materials data prev = Except.ok out)
    (hmem : m ∈ out.model_buffer) :
    m.material_id < data.length ∧
    out.material_buffer.get? m.material_id =
      (data.get? m.material_id).bind (fun d => materials d.2) ∧
    (data.get? m.material_id).map (fun d => d.1.position) = some m.position ∧
    (data.get? m.material_id).map (fun d => d.1.radius) = some m.radius := by
  obtain ⟨ms, mts, reordered, hc, hs, hout2⟩ :=
    prepare_buffers_ok_elim build materials data prev out hout
  subst hout2
  have hmem2 : m ∈ ms :=
    swapLoop_subset (build ms).primitive_indices ms reordered 0 hs m hmem
  obtain ⟨n, hn⟩ := List.get_of_mem hmem2
  have hm : ms.get? n.1 = some m := by
    rw [List.get?_eq_get n.2]
    exact congrArg some hn
  obtain ⟨spec1, spec2, spec3⟩ := collectModels_ok_spec materials data 0 ms mts hc
  have hidata : n.1 < data.length := spec1 ▸ n.2
  have hd : data.get? n.1 = some (data.get ⟨n.1, hidata⟩) := List.get?_eq_get hidata
  obtain ⟨hmsi, hmtsi⟩ := spec3 n.1 _ hd
  rw [hm] at hmsi
  injection hmsi with hmeq
  have hId : m.material_id = n.1 := by
    rw [hmeq]
    simp [Nat.mod_eq_of_lt (lt_of_lt_of_le hidata hlen)]
  refine ⟨?_, ?_, ?_, ?_⟩
  · rw [hId]; exact hidata
  · rw [hId, hd]
    simpa using hmtsi
  · rw [hId, hd]
    simp [hmeq]
  · rw [hId, hd]
    simp [hmeq]

/-- Witness for C3 on the two sphere frame with the transposition
builder. -/
theorem prepare_buffers_materials_follow_models_witness :
    modelA.material_id < dataAB.length ∧
    bufAB.material_buffer.get? modelA.material_id =
      (dataAB.get? modelA.material_id).bind (fun d => cacheAll d.2) ∧
    (dataAB.get? modelA.material_id).map (fun d => d.1.position) = some modelA.position ∧
    (dataAB.get? modelA.material_id).map (fun d => d.1.radius) = some modelA.radius :=
  prepare_buffers_materials_follow_models buildSwapAB cacheAll dataAB emptyBuffers bufAB
    modelA (by decide) rfl (by decide)

/-- A sphere whose material record is missing from the cache makes the
enumeration loop panic, wherever it sits in the frame. -/
theorem collectModels_missing (materials : Nat → Option Extract.RaytraceMaterial)
    (sphere : Extract.RaytracedSphereExtract) (handle : Nat)
    (hmiss : materials handle = none)
    (data : List (Extract.RaytracedSphereExtract × Nat)) :
    ∀ (k : Nat), (sphere, handle) ∈ data →
      Extract.collectModels materials k data = Except.error Panic.panic := by
  induction data with
  | nil => intro k hk; simp at hk
  | cons pair rest ih =>
    obtain ⟨s0, h0⟩ := pair
    intro k hk
    cases hm : materials h0 with
    | none => simp [Extract.collectModels, hm]
    | some m0 =>
      have hmem : (sphere, handle) ∈ rest := by
        rcases List.mem_cons.mp hk with heq | hmem
        · injection heq with he1 he2
          rw [← he2] at hm
          rw [hm] at hmiss
          exact Option.noConfusion hmiss
        · exact hmem
      simp [Extract.collectModels, hm, ih (k + 1) hmem]

/-- C6 amended: the guarded paths of the frame pipeline no-op (a
poisoned lock in `prepare_buffers` skips the update and keeps the
previous buffers), but the two failure paths the claim names panic:
a poisoned buffer mutex in the draw step of the compositing node, and
a material record missing from the render asset cache during buffer
preparation. -/
theorem pipeline_failure_paths (s : Pipeline.RunState)
    (build build2 : List Extract.Model → Extract.Bvh2)
    (materials materials2 : Nat → Option Extract.RaytraceMaterial)
    (data data2 : List (Extract.RaytracedSphereExtract × Nat))
    (prev prev2 : Extract.Buffers)
    (sphere : Extract.RaytracedSphereExtract) (handle : Nat)
    (ml mtl bl : Bool)
    (hp : s.pipeline_ready = true) (hsb : s.settings_binding = true)
    (hcb : s.camera_binding = true) (hd : s.depth_view = true)
    (hg : s.geometry_lock_ok = false)
    (hmem : (sphere, handle) ∈ data) (hmiss : materials handle = none)
    (hlock : ml = false ∨ mtl = false ∨ bl = false) :
    Pipeline.run s = Except.error Panic.panic ∧
    Extract.prepare_buffers build true true true materials data prev =
      Except.error Panic.panic ∧
    Extract.prepare_buffers build2 ml mtl bl materials2 data2 prev2 = Except.ok prev2 := by
  refine ⟨?_, ?_, ?_⟩
  · simp [Pipeline.run, hp, hsb, hcb, hd, hg]
  · simp [Extract.prepare_buffers,
      collectModels_missing materials sphere handle hmiss data 0 hmem]
  · exact prepare_buffers_lock_skip_aux build2 ml mtl bl materials2 data2 prev2 hlock

/-- Witness for the amended C6 at concrete states: a poisoned geometry
mutex in the draw step, an unresolved material in preparation, and a
poisoned model lock in preparation. -/
theorem pipeline_failure_paths_witness :
    Pipeline.run poisonedDrawState = Except.error Panic.panic ∧
    Extract.prepare_buffers buildSingleA true true true cacheNone dataA emptyBuffers =
      Except.error Panic.panic ∧
    Extract.prepare_buffers buildSingleA false true true cacheAll dataA emptyBuffers =
      Except.ok emptyBuffers :=
  pipeline_failure_paths poisonedDrawState buildSingleA buildSingleA cacheNone cacheAll
    dataA dataA emptyBuffers emptyBuffers sphereA 0 false true true
    rfl rfl rfl rfl rfl (by decide) rfl (Or.inl rfl)

/-- C7: the compositing node returns `Ok` without creating a bind group
or recording the render pass whenever the view lacks a depth prepass
texture, and likewise (with the locks healthy) whenever a required
buffer has never been populated, so that its binding is unavailable
even after `write_buffer`. -/
theorem run_skips_draw_without_depth_or_binding (s : Pipeline.RunState)
    (h : s.depth_view = false ∨
      (s.geometry_lock_ok = true ∧ s.material_lock_ok = true ∧
        ((s.geometry.data = [] ∧ s.geometry.gpu = none) ∨
         (s.material.data = [] ∧ s.material.gpu = none)))) :
    (Pipeline.run s).map
        (fun eff => (eff.pass_recorded, eff.bind_group_created,
                     eff.bound_geometry, eff.bound_material)) =
      Except.ok (false, false, none, none) := by
  cases hp : s.pipeline_ready with
  | false => simp [Pipeline.run, Except.map, hp]
  | true =>
    cases hsb : s.settings_binding with
    | false => simp [Pipeline.run, Except.map, hp, hsb]
    | true =>
      cases hcb : s.camera_binding with
      | false => simp [Pipeline.run, Except.map, hp, hsb, hcb]
      | true =>
        cases hd : s.depth_view with
        | false => simp [Pipeline.run, Except.map, hp, hsb, hcb, hd]
        | true =>
          rcases h with h | ⟨hg, hm, hnever⟩
          · rw [hd] at h
            exact absurd h (by simp)
          · rcases hnever with ⟨hgd, hgg⟩ | ⟨hmd, hmg⟩
            · have hb : Pipeline.binding (Pipeline.writeBuffer s.geometry) = none := by
                simp [Pipeline.writeBuffer, Pipeline.binding, hgd, hgg]
              simp [Pipeline.run, Except.map, hp, hsb, hcb, hd, hg, hm, hb]
            · have hb : Pipeline.binding (Pipeline.writeBuffer s.material) = none := by
                simp [Pipeline.writeBuffer, Pipeline.binding, hmd, hmg]
              cases hgb : Pipeline.binding (Pipeline.writeBuffer s.geometry) with
              | none => simp [Pipeline.run, Except.map, hp, hsb, hcb, hd, hg, hm, hgb]
              | some g => simp [Pipeline.run, Except.map, hp, hsb, hcb, hd, hg, hm, hgb, hb]

/-- A draw invocation with healthy locks and never populated buffers. -/
def nodeStateUnpopulated : Pipeline.RunState :=
  { pipeline_ready := true, settings_binding := true, camera_binding := true,
    depth_view := true, geometry_lock_ok := true, material_lock_ok := true,
    geometry := { data := [], gpu := none }, material := { data := [], gpu := none } }

/-- Witness for C7 at a view whose buffers were never populated. -/
theorem run_skips_draw_without_depth_or_binding_witness :
    (Pipeline.run nodeStateUnpopulated).map
        (fun eff => (eff.pass_recorded, eff.bind_group_created,
                     eff.bound_geometry, eff.bound_material)) =
      Except.ok (false, false, none, none) :=
  run_skips_draw_without_depth_or_binding nodeStateUnpopulated
    (Or.inr ⟨rfl, rfl, Or.inl ⟨rfl, rfl⟩⟩)
